import Mathlib

/-!
MemoryBridge — OpenClaw integration wrapper, shallow embedding.

Embedding of `src/scripts/openclaw-install.js`.  The installer's generated
wrapper module defines `store`, `query`, `getSessionContext`, `autoStore` and
`calculateImportance`; those functions are embedded here as pure Lean
functions.  JavaScript strings are modelled as Lean `String`
(`String.data : List Char`); `String.prototype.includes` becomes a substring
test on character lists, `toLowerCase` maps `Char.toLower` over the
characters (faithful on the ASCII texts involved), `slice(0, n)` is
`List.take n`, and `trim` drops surrounding whitespace characters.
-/

/-- JavaScript whitespace relevant to `String.prototype.trim` (space, tab,
newline, carriage return, form feed, vertical tab). -/
def isJsWhitespace (c : Char) : Bool :=
  c = ' ' || c = '\t' || c = '\n' || c = '\r' || c = '\x0c' || c = '\x0b'

/-- Whether `needle` occurs as a contiguous run inside `hay`
(JavaScript `hay.includes(needle)`). -/
def listContainsSub : List Char → List Char → Bool
  | [], needle => needle.isEmpty
  | c :: rest, needle => needle.isPrefixOf (c :: rest) || listContainsSub rest needle

/-- JavaScript `hay.includes(needle)` on strings. -/
def strContains (hay needle : String) : Bool :=
  listContainsSub hay.data needle.data

/-- JavaScript `s.toLowerCase()` (per-character lowering; the source only
applies it to ASCII text). -/
def strToLower (s : String) : String :=
  String.mk (s.data.map Char.toLower)

/-- JavaScript `s.trim()` on a character list: drop whitespace from
both ends. -/
def trimChars (l : List Char) : List Char :=
  ((l.dropWhile isJsWhitespace).reverse.dropWhile isJsWhitespace).reverse

/-- JavaScript `s.trim()`. -/
def strTrim (s : String) : String :=
  String.mk (trimChars s.data)

/-- Wrapper `const highValueWords = ['decide', 'build', 'create', 'launch',
'important', 'critical', 'goal', 'prefer']` (wrapper line 116). -/
def highValueWords : List String :=
  ["decide", "build", "create", "launch", "important", "critical", "goal", "prefer"]

/-- Wrapper `calculateImportance(userMsg, agentResp)` from the generated wrapper
(wrapper lines 108–130): base 5; `+1` for `userMsg.length > 100` and another
`+1` for `> 300`; plus `Math.min(3, matches)` where `matches` counts the
high-value words occurring (case-insensitively) in `userMsg`; `+3` when the
lowered message contains `security`, `password` or `api key`;
result `Math.min(10, score)`. -/
def calculateImportance (userMsg agentResp : String) : Nat :=
  let score := 5
  let score := if userMsg.length > 100 then score + 1 else score
  let score := if userMsg.length > 300 then score + 1 else score
  let matchCount := (highValueWords.filter (fun w => strContains (strToLower userMsg) w)).length
  let score := score + min 3 matchCount
  let score :=
    if strContains (strToLower userMsg) "security" ||
       strContains (strToLower userMsg) "password" ||
       strContains (strToLower userMsg) "api key" then score + 3 else score
  min 10 score

example : calculateImportance "User prefers dark mode" "" = 6 := by decide
example : calculateImportance "hello" "" = 5 := by decide
example : calculateImportance "build" "" = 6 := by decide
example :
    calculateImportance "My API key leaked, this is a critical security issue" "" = 9 := by
  decide

/-- Options accepted by the wrapper's `store(content, options = {})`
(a JavaScript object; absent keys are modelled as `none`). -/
structure StoreOptions where
  agentId : Option String
  source : Option String
  type : Option String
  importance : Option Nat

/-- The `store` options with every key absent (JavaScript `{}`). -/
def StoreOptions.empty : StoreOptions :=
  ⟨none, none, none, none⟩

/-- The record the wrapper passes to `memory.store`: sanitized content plus
the merged option object. -/
structure StoreRequest where
  content : String
  agentId : String
  source : String
  type : Option String
  importance : Option Nat
deriving DecidableEq

/-- Wrapper `store(content, options = {})` (wrapper lines 53–60):
`const sanitized = content.slice(0, 5000).trim();` then
`memory.store(sanitized, { agentId: 'OpenClaw', source: 'openclaw-chat',
...options })`.  The JavaScript spread lets caller-supplied keys override the
two defaults; we model the request object handed to the engine. -/
def sanitizeContent (content : String) : String :=
  strTrim (String.mk (content.data.take 5000))

def store (content : String) (options : StoreOptions) : StoreRequest :=
  ⟨sanitizeContent content,
   options.agentId.getD "OpenClaw",
   options.source.getD "openclaw-chat",
   options.type,
   options.importance⟩

/-- Options accepted by the wrapper's `query(queryString, options = {})`. -/
structure QueryOptions where
  agentId : Option String
  limit : Option Nat
  days : Option Nat
  minImportance : Option Nat

/-- The `query` options with every key absent (JavaScript `{}`). -/
def QueryOptions.empty : QueryOptions :=
  ⟨none, none, none, none⟩

/-- The merged option object the wrapper passes to `memory.query`. -/
structure QueryRequest where
  queryString : String
  agentId : String
  limit : Nat
  days : Nat
  minImportance : Option Nat

/-- Wrapper `query(queryString, options = {})` (wrapper lines 63–70):
`memory.query(queryString, { agentId: 'OpenClaw', limit: 5, days: 30,
...options })`. -/
def query (queryString : String) (options : QueryOptions) : QueryRequest :=
  ⟨queryString,
   options.agentId.getD "OpenClaw",
   options.limit.getD 5,
   options.days.getD 30,
   options.minImportance⟩

/-- Wrapper `autoStore(userMessage, agentResponse)` (wrapper lines 89–106),
modelled as the sequence of `store` calls it performs: none when the computed
importance is below 6; otherwise the message itself (`insight` when the
importance reaches 8, else `conversation`), followed — when the message
contains `decide`, `build` or `create` (case-sensitive, as in the source) —
by `store('Decision: ' + userMessage, { type: 'decision', importance: 9 })`. -/
def autoStore (userMessage agentResponse : String) : List StoreRequest :=
  let importance := calculateImportance userMessage agentResponse
  if importance ≥ 6 then
    let first :=
      store userMessage
        ⟨none, none, some (if importance ≥ 8 then "insight" else "conversation"),
         some importance⟩
    if strContains userMessage "decide" || strContains userMessage "build" ||
       strContains userMessage "create" then
      [first, store ("Decision: " ++ userMessage) ⟨none, none, some "decision", some 9⟩]
    else
      [first]
  else []

example : autoStore "hi" "" = [] := by decide
example :
    autoStore "decide" "" =
      [⟨"decide", "OpenClaw", "openclaw-chat", some "conversation", some 6⟩,
       ⟨"Decision: decide", "OpenClaw", "openclaw-chat", some "decision", some 9⟩] := by
  decide

/-!
Installer (the script's `main`, lines 15–179).

The installer checks `fs.existsSync(MEMORY_DIR)` and returns at once when the
memory-bridge directory already exists; otherwise it creates the directory and
writes `config.json`, `openclaw-wrapper.js` and `example.js`.  The filesystem
is modelled as a list of directory paths and a list of (path, contents) files;
`path.join` of the fixed relative names is string concatenation with `/`.
Console output has no filesystem effect and is not modelled.
-/

/-- Script `MEMORY_DIR = path.join(OPENCLAW_DIR, '.memory-bridge')` (line 13);
`OPENCLAW_DIR` comes from the environment, so it is a parameter here. -/
def memoryDir (openclawDir : String) : String :=
  openclawDir ++ "/.memory-bridge"

/-- Filesystem state: existing directories and files with their contents. -/
structure FileSystem where
  dirs : List String
  files : List (String × String)
deriving DecidableEq

/-- JavaScript `fs.existsSync(p)`: the path exists as a directory or as a file. -/
def existsPath (fs : FileSystem) (p : String) : Bool :=
  fs.dirs.contains p || (fs.files.map Prod.fst).contains p

/-- JavaScript `fs.mkdirSync(p, { recursive: true })` (effect on the modelled state:
the directory now exists; already-existing ancestors are unchanged). -/
def mkdirSync (fs : FileSystem) (p : String) : FileSystem :=
  FileSystem.mk (fs.dirs ++ [p]) fs.files

/-- JavaScript `fs.writeFileSync(p, contents)`. -/
def writeFileSync (fs : FileSystem) (p contents : String) : FileSystem :=
  FileSystem.mk fs.dirs (fs.files ++ [(p, contents)])

/-- The default config written by the installer,
`JSON.stringify(config, null, 2)` of `{ storage: 'sqlite',
path: path.join(MEMORY_DIR, 'memory.db'), agentId: 'OpenClaw',
version: '1.0.0' }` (script lines 29–39). -/
def configJson (openclawDir : String) : String :=
  "\x7b\n  \"storage\": \"sqlite\",\n  \"path\": \"" ++ memoryDir openclawDir ++
    "/memory.db\",\n  \"agentId\": \"OpenClaw\",\n  \"version\": \"1.0.0\"\n\x7d"

/-- The generated wrapper module text (script lines 42–139, with the
template's backtick and dollar-brace escapes resolved). -/
def wrapperCode : String :=
  "// Memory Bridge OpenClaw Integration\nconst MemoryBridge = require(\x27memory-bridge\x27);\nconst path = require(\x27path\x27);\n\nconst configPath = path.join(__dirname, \x27config.json\x27);\nconst config = require(configPath);\n\n// Initialize memory\nconst memory = new MemoryBridge(config);\n\n// Enhanced store with OpenClaw defaults\nasync function store(content, options = \x7b\x7d) \x7b\n  const sanitized = content.slice(0, 5000).trim();\n  return memory.store(sanitized, \x7b\n    agentId: \x27OpenClaw\x27,\n    source: \x27openclaw-chat\x27,\n    ...options\n  \x7d);\n\x7d\n\n// Enhanced query with OpenClaw defaults\nasync function query(queryString, options = \x7b\x7d) \x7b\n  return memory.query(queryString, \x7b\n    agentId: \x27OpenClaw\x27,\n    limit: 5,\n    days: 30,\n    ...options\n  \x7d);\n\x7d\n\n// Get session context\nasync function getSessionContext() \x7b\n  const [recent, preferences, goals] = await Promise.all([\n    query(\x27recent work\x27, \x7b limit: 3, days: 7 \x7d),\n    query(\x27preference\x27, \x7b limit: 5 \x7d),\n    query(\x27goal\x27, \x7b minImportance: 8, limit: 3 \x7d)\n  ]);\n  \n  return \x7b\n    recentMemories: recent,\n    preferences: preferences,\n    goals: goals,\n    hasContext: recent.length > 0 || preferences.length > 0\n  \x7d;\n\x7d\n\n// Auto-store important messages\nasync function autoStore(userMessage, agentResponse) \x7b\n  const importance = calculateImportance(userMessage, agentResponse);\n  \n  if (importance >= 6) \x7b\n    await store(userMessage, \x7b\n      type: importance >= 8 ? \x27insight\x27 : \x27conversation\x27,\n      importance\n    \x7d);\n    \n    // Extract and store decisions\n    if (userMessage.includes(\x27decide\x27) || userMessage.includes(\x27build\x27) || userMessage.includes(\x27create\x27)) \x7b\n      await store(\x60Decision: $\x7buserMessage\x7d\x60, \x7b\n        type: \x27decision\x27,\n        importance: 9\n      \x7d);\n    \x7d\n  \x7d\n\x7d\n\nfunction calculateImportance(userMsg, agentResp) \x7b\n  let score = 5;\n  \n  // Length indicators\n  if (userMsg.length > 100) score += 1;\n  if (userMsg.length > 300) score += 1;\n  \n  // Keyword indicators\n  const highValueWords = [\x27decide\x27, \x27build\x27, \x27create\x27, \x27launch\x27, \x27important\x27, \x27critical\x27, \x27goal\x27, \x27prefer\x27];\n  const matches = highValueWords.filter(w => \n    userMsg.toLowerCase().includes(w)\n  ).length;\n  score += Math.min(3, matches);\n  \n  // Security/critical\n  if (userMsg.toLowerCase().includes(\x27security\x27) || \n      userMsg.toLowerCase().includes(\x27password\x27) ||\n      userMsg.toLowerCase().includes(\x27api key\x27)) \x7b\n    score += 3;\n  \x7d\n  \n  return Math.min(10, score);\n\x7d\n\nmodule.exports = \x7b\n  memory,\n  store,\n  query,\n  getSessionContext,\n  autoStore\n\x7d;\n"

/-- The generated usage-example text (script lines 144–167). -/
def exampleCode : String :=
  "// Example: Using Memory Bridge in OpenClaw\nconst \x7b store, query, getSessionContext, autoStore \x7d = require(\x27./.memory-bridge/openclaw-wrapper\x27);\n\n// Store a memory\nawait store(\x27Nikola wants to build 3 products this quarter\x27, \x7b\n  type: \x27goal\x27,\n  importance: 9\n\x7d);\n\n// Query memories\nconst results = await query(\x27what Nikola wants to build\x27);\nconsole.log(results[0].content);\n\n// Get full session context\nconst context = await getSessionContext();\nif (context.hasContext) \x7b\n  console.log(\x27Recent:\x27, context.recentMemories.map(m => m.content));\n  console.log(\x27Preferences:\x27, context.preferences.map(m => m.content));\n  console.log(\x27Goals:\x27, context.goals.map(m => m.content));\n\x7d\n\n// Auto-store from conversation\nawait autoStore(userMessage, agentResponse);\n"

/-- The script's `main()` (lines 15–179) as a filesystem transformer
(named `installMain` here because `main` is reserved for program entry points): return the
state unchanged when `MEMORY_DIR` exists, else create the directory and write
the three files. -/
def installMain (openclawDir : String) (fs : FileSystem) : FileSystem :=
  if existsPath fs (memoryDir openclawDir) then fs
  else
    let fs := mkdirSync fs (memoryDir openclawDir)
    let fs := writeFileSync fs (memoryDir openclawDir ++ "/config.json") (configJson openclawDir)
    let fs := writeFileSync fs (memoryDir openclawDir ++ "/openclaw-wrapper.js") wrapperCode
    let fs := writeFileSync fs (memoryDir openclawDir ++ "/example.js") exampleCode
    fs

/-- Default config `agentId: 'OpenClaw'` written by the installer
(script line 32); the wrapper's `store` default coincides with it. -/
def configAgentId : String :=
  "OpenClaw"

/-!
Specification-side definitions, for comparison with the source functions.
-/

/-- Sensitive signal words as the specification lists them: security-related
terms, password, key-material terms. -/
def specSensitiveWords : List String :=
  ["security", "password", "key"]

/-- The no-explicit-importance scoring formula exactly as the specification's
words state it (base 5; +1 if content length > 200; +2 for insight type;
+1 for error type; +2 for goal type; +3 for a sensitive signal word; clamp
to [1,10]).  Written from the specification for comparison with
`calculateImportance`; not a translation of the source. -/
def specImportance (content ctype : String) : Nat :=
  let base := 5
  let lenBonus := if content.length > 200 then 1 else 0
  let typeBonus :=
    if ctype = "insight" then 2
    else if ctype = "error" then 1
    else if ctype = "goal" then 2
    else 0
  let sensBonus :=
    if specSensitiveWords.any (fun w => strContains (strToLower content) w) then 3 else 0
  max 1 (min 10 (base + lenBonus + typeBonus + sensBonus))

/-- Modelled from the spec: the Importance Scorer's explicit-importance branch
("If an explicit importance is supplied, clamp to [1,10] and return it — the
scorer never overrides caller intent").  The memory-bridge engine that holds
this branch is not part of this snapshot; the wrapper only forwards
caller-supplied importance values to `memory.store`. -/
def clampImportance (v : Int) : Int :=
  max 1 (min 10 v)

/-!
Helper lemmas shared by the claim theorems.
-/

/-- Length bonus of the wrapper scorer: +1 above 100 characters, +1 more
above 300. -/
def lengthBonus (msg : String) : Nat :=
  (if msg.length > 100 then 1 else 0) + (if msg.length > 300 then 1 else 0)

/-- Keyword bonus of the wrapper scorer: the number of matching high-value
words, capped at 3. -/
def keywordBonus (msg : String) : Nat :=
  min 3 ((highValueWords.filter (fun w => strContains (strToLower msg) w)).length)

/-- Security bonus of the wrapper scorer: 3 when the lowered message contains
`security`, `password` or `api key`. -/
def securityBonus (msg : String) : Nat :=
  if strContains (strToLower msg) "security" ||
     strContains (strToLower msg) "password" ||
     strContains (strToLower msg) "api key" then 3 else 0

theorem calculateImportance_eq_closed (msg resp : String) :
    calculateImportance msg resp =
      min 10 (5 + (lengthBonus msg + keywordBonus msg + securityBonus msg)) := by
  by_cases h1 : msg.length > 100 <;> by_cases h2 : msg.length > 300 <;>
    by_cases h3 :
      (strContains (strToLower msg) "security" ||
       strContains (strToLower msg) "password" ||
       strContains (strToLower msg) "api key") = true <;>
    simp [calculateImportance, lengthBonus, keywordBonus, securityBonus, h1, h2, h3] <;>
    omega

theorem calculateImportance_bounds (msg resp : String) :
    5 ≤ calculateImportance msg resp ∧ calculateImportance msg resp ≤ 10 := by
  rw [calculateImportance_eq_closed]
  omega

theorem trimChars_length_le (l : List Char) : (trimChars l).length ≤ l.length := by
  unfold trimChars
  have h1 : (List.dropWhile isJsWhitespace
      (l.dropWhile isJsWhitespace).reverse).length ≤
      (l.dropWhile isJsWhitespace).reverse.length :=
    (List.dropWhile_sublist _).length_le
  have h2 : (l.dropWhile isJsWhitespace).length ≤ l.length :=
    (List.dropWhile_sublist _).length_le
  simp only [List.length_reverse] at h1 ⊢
  omega

theorem sanitizeContent_length_le (c : String) : (sanitizeContent c).length ≤ 5000 := by
  show (trimChars (c.data.take 5000)).length ≤ 5000
  have h1 := trimChars_length_le (c.data.take 5000)
  have h2 : (c.data.take 5000).length ≤ 5000 := by
    rw [List.length_take 5000 c.data]
    exact min_le_left _ _
  omega

/-!
Claim theorems.
-/

/-- C1 (counterexample).  The claimed scoring formula (base 5, +1 only above
200 characters, type bonuses for insight/error/goal, +3 for sensitive words)
disagrees with the wrapper scorer: on the 5-character message `build` with
the default `conversation` type the claimed formula yields 5, while
`calculateImportance` yields 6 (the high-value keyword `build` matches). -/
theorem calculateImportance_build_ne_spec :
    calculateImportance "build" "" = 6 ∧ specImportance "build" "conversation" = 5 := by
  constructor <;> decide

/-- C1 (amended).  With no explicit importance (the wrapper scorer takes
none), the computed importance equals 5 plus a length bonus (+1 above 100
characters, +1 more above 300, so capped at 2), plus the number of high-value
keywords (`decide`, `build`, `create`, `launch`, `important`, `critical`,
`goal`, `prefer`) occurring case-insensitively in the message capped at 3,
plus 3 when the message contains `security`, `password` or `api key`
case-insensitively, capped above at 10; the declared content type plays no
role, and the result always lies in [5,10] ⊆ [1,10]. -/
theorem calculateImportance_closed_form (msg resp : String) :
    calculateImportance msg resp =
      min 10 (5 + (lengthBonus msg + keywordBonus msg + securityBonus msg)) ∧
    5 ≤ calculateImportance msg resp ∧ calculateImportance msg resp ≤ 10 :=
  ⟨calculateImportance_eq_closed msg resp, calculateImportance_bounds msg resp⟩

/-- C2 (counterexample).  Content longer than 5000 characters is not always
persisted at exactly 5000 characters: 5001 spaces are sliced to 5000 spaces
and then trimmed to the empty string, so the stored content has length 0. -/
theorem dropWhile_of_replicate (p : Char → Bool) (c : Char) (hp : p c = true) (n : Nat) :
    (List.replicate n c).dropWhile p = [] := by
  induction n with
  | zero => simp
  | succ k ih => simp [List.replicate_succ, List.dropWhile_cons, hp, ih]

theorem store_truncation_not_exactly_5000 :
    (String.mk (List.replicate 5001 ' ')).length > 5000 ∧
    ((store (String.mk (List.replicate 5001 ' ')) StoreOptions.empty).content).length ≠ 5000 := by
  constructor
  · show (List.replicate 5001 ' ').length > 5000
    rw [List.length_replicate]
    norm_num
  · show (trimChars ((List.replicate 5001 ' ').take 5000)).length ≠ 5000
    rw [List.take_replicate]
    norm_num
    unfold trimChars
    rw [dropWhile_of_replicate isJsWhitespace ' ' (by decide)]
    norm_num

/-- C2 (amended).  Storing content longer than 5000 characters persists the
first 5000 characters trimmed of surrounding whitespace — which is at most
5000 characters, and exactly 5000 only when that prefix carries no
surrounding whitespace; persisted content is never longer than 5000
characters. -/
theorem store_content_truncated_and_trimmed (content : String) (opts : StoreOptions)
    (_h : content.length > 5000) :
    (store content opts).content = strTrim (String.mk (content.data.take 5000)) ∧
    ((store content opts).content).length ≤ 5000 :=
  ⟨rfl, sanitizeContent_length_le content⟩

/-- C2 (witness). -/
theorem store_content_truncated_witness :
    (String.mk (List.replicate 5001 'a')).length > 5000 ∧
    ((store (String.mk (List.replicate 5001 'a')) StoreOptions.empty).content).length ≤ 5000 :=
  ⟨by show (List.replicate 5001 'a').length > 5000; rw [List.length_replicate]; norm_num,
   (store_content_truncated_and_trimmed (String.mk (List.replicate 5001 'a'))
     StoreOptions.empty
     (by show (List.replicate 5001 'a').length > 5000; rw [List.length_replicate]; norm_num)).2⟩

/-- C3 (counterexample).  `store("User prefers dark mode", {type:"preference"})`
with no explicit importance does not score 5: the wrapper scorer matches the
high-value keyword `prefer` inside `prefers`, so it returns 6. -/
theorem calculateImportance_dark_mode_ne_five :
    calculateImportance "User prefers dark mode" "" ≠ 5 ∧
    calculateImportance "User prefers dark mode" "" = 6 := by
  constructor <;> decide

/-- C3 (amended).  Storing `User prefers dark mode` with no explicit
importance yields a computed importance of exactly 6: the high-value keyword
`prefer` occurs case-insensitively in the content (+1 on the base 5), no
other adjustment applies, and the declared type (`preference`) is not
consulted by the scorer. -/
theorem calculateImportance_dark_mode_eq_six :
    calculateImportance "User prefers dark mode" "" = 6 ∧
    keywordBonus "User prefers dark mode" = 1 ∧
    lengthBonus "User prefers dark mode" = 0 ∧
    securityBonus "User prefers dark mode" = 0 := by
  refine ⟨?_, ?_, ?_, ?_⟩ <;> decide

/-- C4.  On `My API key leaked, this is a critical security issue` the
sensitive-term bonus of +3 applies (`api key` and `security` both occur), and
the computed importance is 9 — at least 8 and at most 10. -/
theorem calculateImportance_api_key_scenario :
    securityBonus "My API key leaked, this is a critical security issue" = 3 ∧
    calculateImportance "My API key leaked, this is a critical security issue" "" = 9 ∧
    8 ≤ calculateImportance "My API key leaked, this is a critical security issue" "" ∧
    calculateImportance "My API key leaked, this is a critical security issue" "" ≤ 10 := by
  refine ⟨?_, ?_, ?_, ?_⟩ <;> decide

/-- C5.  Every importance value produced lies in [1,10]: the wrapper scorer
always returns a value between 1 and 10 (indeed between 5 and 10), and the
spec-modelled explicit-importance clamp maps every caller value into [1,10],
returning in-range values unchanged — out-of-range input is clamped, never
rejected. -/
theorem importance_always_in_range :
    (∀ msg resp : String,
      1 ≤ calculateImportance msg resp ∧ calculateImportance msg resp ≤ 10) ∧
    (∀ v : Int,
      1 ≤ clampImportance v ∧ clampImportance v ≤ 10 ∧
      (1 ≤ v → v ≤ 10 → clampImportance v = v)) := by
  constructor
  · intro msg resp
    have h := calculateImportance_bounds msg resp
    omega
  · intro v
    unfold clampImportance
    refine ⟨le_max_left _ _, ?_, ?_⟩
    · exact max_le (by norm_num) (min_le_left _ _)
    · intro h1 h10
      rw [min_eq_right h10, max_eq_right h1]

/-- C5 (witness). -/
theorem importance_range_witness :
    1 ≤ calculateImportance "hello" "" ∧ calculateImportance "hello" "" ≤ 10 ∧
    clampImportance 7 = 7 ∧ 1 ≤ clampImportance (-4) ∧ clampImportance 99 ≤ 10 :=
  ⟨(importance_always_in_range.1 "hello" "").1,
   (importance_always_in_range.1 "hello" "").2,
   (importance_always_in_range.2 7).2.2 (by decide) (by decide),
   (importance_always_in_range.2 (-4)).1,
   (importance_always_in_range.2 99).2.1⟩

/-- C6.  The wrapper's `query` defaults `limit` to 5 and `days` to 30 when
the caller omits them, and caller-supplied values override the defaults. -/
theorem query_defaults_and_overrides :
    (∀ (qs : String) (o : QueryOptions), o.limit = none → (query qs o).limit = 5) ∧
    (∀ (qs : String) (o : QueryOptions), o.days = none → (query qs o).days = 30) ∧
    (∀ (qs : String) (o : QueryOptions) (l : Nat),
      o.limit = some l → (query qs o).limit = l) ∧
    (∀ (qs : String) (o : QueryOptions) (d : Nat),
      o.days = some d → (query qs o).days = d) := by
  refine ⟨?_, ?_, ?_, ?_⟩ <;> intro qs o <;> first
    | (intro h; simp [query, h])
    | (intro x h; simp [query, h])

/-- C6 (witness). -/
theorem query_defaults_witness :
    (query "recent work" QueryOptions.empty).limit = 5 ∧
    (query "recent work" QueryOptions.empty).days = 30 ∧
    (query "recent work" (QueryOptions.mk none (some 3) (some 7) none)).limit = 3 ∧
    (query "recent work" (QueryOptions.mk none (some 3) (some 7) none)).days = 7 :=
  ⟨query_defaults_and_overrides.1 "recent work" QueryOptions.empty rfl,
   query_defaults_and_overrides.2.1 "recent work" QueryOptions.empty rfl,
   query_defaults_and_overrides.2.2.1 "recent work" (QueryOptions.mk none (some 3) (some 7) none) 3 rfl,
   query_defaults_and_overrides.2.2.2 "recent work" (QueryOptions.mk none (some 3) (some 7) none) 7 rfl⟩

/-- C7.  When the caller omits `agentId`, the wrapper's `store` assigns the
configured default identity `OpenClaw` to the persisted request, and a
caller-supplied `agentId` overrides it. -/
theorem store_agentId_default_and_override :
    (∀ (c : String) (o : StoreOptions), o.agentId = none →
      (store c o).agentId = configAgentId) ∧
    (∀ (c : String) (o : StoreOptions) (a : String), o.agentId = some a →
      (store c o).agentId = a) := by
  constructor
  · intro c o h
    simp [store, configAgentId, h]
  · intro c o a h
    simp [store, h]

/-- C7 (witness). -/
theorem store_agentId_witness :
    (store "note" StoreOptions.empty).agentId = configAgentId ∧
    (store "note" (StoreOptions.mk (some "other-agent") none none none)).agentId =
      "other-agent" :=
  ⟨store_agentId_default_and_override.1 "note" StoreOptions.empty rfl,
   store_agentId_default_and_override.2 "note"
     (StoreOptions.mk (some "other-agent") none none none) "other-agent" rfl⟩

/-- C8.  The computed importance depends only on the user message: the
wrapper scorer returns the same value for any two agent responses. -/
theorem calculateImportance_ignores_response (msg r1 r2 : String) :
    calculateImportance msg r1 = calculateImportance msg r2 := rfl

/-- C9.  `autoStore` performs no store when the computed importance of the
user message is below 6; when the importance is at least 6 and the message
contains `decide`, `build` or `create`, it stores the message and
additionally a second memory whose content is the message prefixed with
`Decision: `, typed `decision` with importance 9. -/
theorem autoStore_threshold_and_decision (msg resp : String) :
    (calculateImportance msg resp < 6 → autoStore msg resp = []) ∧
    (calculateImportance msg resp ≥ 6 →
      (strContains msg "decide" || strContains msg "build" ||
       strContains msg "create") = true →
      autoStore msg resp =
        [store msg
          ⟨none, none,
           some (if calculateImportance msg resp ≥ 8 then "insight" else "conversation"),
           some (calculateImportance msg resp)⟩,
         store ("Decision: " ++ msg) ⟨none, none, some "decision", some 9⟩]) := by
  constructor
  · intro h
    simp only [autoStore]
    rw [if_neg (by omega)]
  · intro h6 hw
    simp only [autoStore]
    rw [if_pos h6, if_pos hw]

/-- C9 (witness). -/
theorem autoStore_witness :
    autoStore "hi" "" = [] ∧
    autoStore "decide" "" =
      [store "decide"
        ⟨none, none,
         some (if calculateImportance "decide" "" ≥ 8 then "insight" else "conversation"),
         some (calculateImportance "decide" "")⟩,
       store ("Decision: " ++ "decide") ⟨none, none, some "decision", some 9⟩] :=
  ⟨(autoStore_threshold_and_decision "hi" "").1 (by decide),
   (autoStore_threshold_and_decision "decide" "").2 (by decide) (by decide)⟩

/-- C10.  When the memory-bridge installation directory already exists, the
installer's main function returns early: it writes no files and creates no
directories, leaving the filesystem state unchanged. -/
theorem installMain_noop_when_installed (openclawDir : String) (fs : FileSystem)
    (h : existsPath fs (memoryDir openclawDir) = true) :
    installMain openclawDir fs = fs := by
  simp only [installMain]
  rw [if_pos h]

/-- C10 (witness). -/
theorem installMain_noop_witness :
    installMain "/Users/ares/.openclaw/workspace"
      (FileSystem.mk ["/Users/ares/.openclaw/workspace/.memory-bridge"] []) =
    FileSystem.mk ["/Users/ares/.openclaw/workspace/.memory-bridge"] [] :=
  installMain_noop_when_installed "/Users/ares/.openclaw/workspace"
    (FileSystem.mk ["/Users/ares/.openclaw/workspace/.memory-bridge"] []) (by decide)
